import Mathlib

set_option maxHeartbeats 1000000
set_option maxRecDepth 8192

/-
Verification of the MCP protocol client in `main.py` of the
`n8n-mcp-client` repository.

The client's protocol logic is embedded shallowly:

* Python values decoded from JSON are modelled by the inductive type `Json`.
* Python runtime exceptions raised by the dynamic operations the client
  performs on such values (`in` membership tests, subscripting, `.get`,
  `.keys`) are modelled by `Except PyExn` computations; each `try/except`
  block of the source becomes an explicit match on such a computation.
* The network is modelled by outcome functions: one `ProbeOutcome` per
  candidate host for the connectivity test, and one `AttemptOutcome` per
  retry attempt for each MCP request sent by the transport.
* The client's mutable attributes form the record `SessionState`, threaded
  explicitly through every operation.
-/

/-- Model of a number decoded by Python `json.loads`: a decimal mantissa and a
power of ten, with a flag recording whether Python would produce an `int` or a
`float`. Floats are modelled as exact decimals; binary rounding and the
non-standard `NaN`/`Infinity` literals are outside the model. -/
structure JNum where
  isFloat : Bool
  mantissa : Int
  exp10 : Int
deriving DecidableEq

/-- Model of a Python value decoded from JSON. Objects keep insertion order,
like Python dicts; duplicate keys are collapsed by the parser with the last
value winning, as `json.loads` does. -/
inductive Json where
  | null
  | bool (b : Bool)
  | num (n : JNum)
  | str (s : String)
  | arr (elems : List Json)
  | obj (fields : List (String × Json))

/-- The opening-brace character, written by code point to keep string and
character literals free of brace characters. -/
def lbrace : Char := Char.ofNat 123

/-- The closing-brace character. -/
def rbrace : Char := Char.ofNat 125

/-- One-character string holding an opening brace. -/
def sLB : String := String.singleton lbrace

/-- One-character string holding a closing brace. -/
def sRB : String := String.singleton rbrace

/-- First value bound to a key in an association list, mirroring lookup in a
Python dict whose keys are unique. -/
def lookupField (fs : List (String × Json)) (k : String) : Option Json :=
  match fs with
  | [] => none
  | (k2, v) :: rest => if k2 = k then some v else lookupField rest k

/-- Update of a key in an association list keeping its position, or append if
absent: the behaviour of assignment into a Python dict. -/
def setField (fs : List (String × Json)) (k : String) (v : Json) :
    List (String × Json) :=
  match fs with
  | [] => [(k, v)]
  | (k2, v2) :: rest =>
      if k2 = k then (k2, v) :: rest else (k2, v2) :: setField rest k v

/-- Prefix test on character lists. -/
def isPrefixList : List Char → List Char → Bool
  | [], _ => true
  | _ :: _, [] => false
  | p :: ps, c :: cs => p = c ∧ isPrefixList ps cs

/-- Split at the first occurrence of `sep` (assumed non-empty): the text
before it and the text after it, or `none` when it does not occur. -/
def findSplit (sep : List Char) : List Char → Option (List Char × List Char)
  | [] => none
  | c :: rest =>
    if isPrefixList sep (c :: rest) then
      some ([], (c :: rest).drop sep.length)
    else
      match findSplit sep rest with
      | some (pre, post) => some (c :: pre, post)
      | none => none

/-- Substring test, modelling the Python expression `needle in hay` on
strings: true when `needle` occurs in `hay` (the empty needle always does). -/
def strContains (hay needle : String) : Bool :=
  if needle.data.isEmpty then true
  else (findSplit needle.data hay.data).isSome

/-- Repeated split on a non-empty separator, fuelled (the fuel of
`pySplitAll` is ample: each removed occurrence consumes at least one
character). -/
def splitOnL (sep : List Char) : Nat → List Char → List (List Char)
  | 0, s => [s]
  | fuel + 1, s =>
    match findSplit sep s with
    | none => [s]
    | some (pre, post) => pre :: splitOnL sep fuel post

/-- Model of Python `s.split(sep)` for a non-empty separator. -/
def pySplitAll (s sep : String) : List String :=
  (splitOnL sep.data (s.data.length + 1) s.data).map String.mk

/-- Characters stripped by Python `str.strip()` (ASCII whitespace; the
further Unicode space characters Python also strips never occur here). -/
def pyIsSpace (c : Char) : Bool :=
  c = ' ' ∨ c = '\t' ∨ c = '\n' ∨ c = '\r' ∨
    c = Char.ofNat 11 ∨ c = Char.ofNat 12

/-- Model of Python `s.strip()`. -/
def pyStrip (s : String) : String :=
  String.mk (((s.data.dropWhile pyIsSpace).reverse.dropWhile pyIsSpace).reverse)

/-- Model of Python `s.startswith(p)`. -/
def strStarts (s p : String) : Bool := isPrefixList p.data s.data

/-- The text after the first `n` characters, modelling Python `s[n:]` for
ASCII prefixes. -/
def strDropN (s : String) (n : Nat) : String := String.mk (s.data.drop n)

/-- Model of a Python exception value, carrying the class and message that
matter to the client (every handler in `main.py` catches plain `Exception`,
so only the rendered message is observable). -/
inductive PyExn where
  | typeError (msg : String)
  | attributeError (msg : String)
  | keyError (msg : String)

/-- Message text of a modelled Python exception, as interpolated by the
source's `f"... {str(e)}"` handlers. -/
def pyExnMsg : PyExn → String
  | .typeError m => m
  | .attributeError m => m
  | .keyError m => m

/-- Python type name of a decoded JSON value, used in exception messages. -/
def pyTypeName : Json → String
  | .null => "NoneType"
  | .bool _ => "bool"
  | .num n => if n.isFloat then "float" else "int"
  | .str _ => "str"
  | .arr _ => "list"
  | .obj _ => "dict"

/-- Python truthiness of a decoded JSON value: `None`, `False`, zero, and the
empty string/list/dict are falsy, everything else truthy. -/
def truthy : Json → Bool
  | .null => false
  | .bool b => b
  | .num n => !(n.mantissa == 0)
  | .str s => !s.data.isEmpty
  | .arr l => !l.isEmpty
  | .obj fs => !fs.isEmpty

/-- Model of the Python expression `k in j` for a string `k` and decoded JSON
value `j`: key membership on dicts, substring on strings, element membership
on lists, and a `TypeError` on the non-iterable types. -/
def pyContains (j : Json) (k : String) : Except PyExn Bool :=
  match j with
  | .obj fs => .ok (lookupField fs k).isSome
  | .str s => .ok (strContains s k)
  | .arr l =>
      .ok (l.any (fun e => match e with | .str s => s == k | _ => false))
  | _ =>
      .error (.typeError
        ("argument of type '" ++ pyTypeName j ++ "' is not iterable"))

/-- Model of the Python expression `j[k]` for a string key: dict lookup, or
the `TypeError`/`KeyError` Python raises on other shapes. -/
def pySubscript (j : Json) (k : String) : Except PyExn Json :=
  match j with
  | .obj fs =>
      match lookupField fs k with
      | some v => .ok v
      | none => .error (.keyError ("'" ++ k ++ "'"))
  | .str _ => .error (.typeError "string indices must be integers")
  | .arr _ =>
      .error (.typeError "list indices must be integers or slices, not str")
  | _ =>
      .error (.typeError
        ("'" ++ pyTypeName j ++ "' object is not subscriptable"))

/-- Model of the Python expression `j.get(k, dflt)`: defined on dicts only,
an `AttributeError` on every other shape. -/
def pyGet (j : Json) (k : String) (dflt : Json) : Except PyExn Json :=
  match j with
  | .obj fs => .ok ((lookupField fs k).getD dflt)
  | _ =>
      .error (.attributeError
        ("'" ++ pyTypeName j ++ "' object has no attribute 'get'"))

/-- Model of the Python expression `list(j.keys())`: defined on dicts only. -/
def pyKeys (j : Json) : Except PyExn (List String) :=
  match j with
  | .obj fs => .ok (fs.map (fun f => f.1))
  | _ =>
      .error (.attributeError
        ("'" ++ pyTypeName j ++ "' object has no attribute 'keys'"))

/-- Lowercase hexadecimal digit for a value below 16. -/
def hexDigitChar (n : Nat) : Char :=
  Char.ofNat (if n < 10 then 48 + n else 87 + n)

/-- Decimal rendering of a decoded JSON number, as Python `str()`/`json.dumps`
print it: plain digits for ints, a digits-point-digits form for floats
(approximating CPython float repr, which the claims never exercise). -/
def numRender (n : JNum) : String :=
  if !n.isFloat then toString n.mantissa
  else if 0 ≤ n.exp10 then
    toString (n.mantissa * (10 : Int) ^ n.exp10.toNat) ++ ".0"
  else
    let d := (-n.exp10).toNat
    let p : Nat := 10 ^ d
    let m := n.mantissa.natAbs
    let fracDigits := toString (m % p)
    (if n.mantissa < 0 then "-" else "") ++ toString (m / p) ++ "." ++
      String.mk (List.replicate (d - fracDigits.length) '0') ++ fracDigits

/-- Escape of one character inside a JSON string literal, as
`json.dumps(..., ensure_ascii=False)` writes it. -/
def escapeJsonChar (c : Char) : String :=
  if c = '"' then "\\\""
  else if c = '\\' then "\\\\"
  else if c = '\n' then "\\n"
  else if c = '\t' then "\\t"
  else if c = '\r' then "\\r"
  else if c = Char.ofNat 8 then "\\b"
  else if c = Char.ofNat 12 then "\\f"
  else if c.toNat < 32 then
    "\\u00" ++ String.singleton (hexDigitChar (c.toNat / 16)) ++
      String.singleton (hexDigitChar (c.toNat % 16))
  else String.singleton c

/-- JSON string literal as written by `json.dumps(..., ensure_ascii=False)`. -/
def dumpStrLit (s : String) : String :=
  "\"" ++ s.data.foldl (fun acc c => acc ++ escapeJsonChar c) "" ++ "\""

/-- Indentation prefix produced by `json.dumps(..., indent=2)` at a nesting
level. -/
def indentStr (lvl : Nat) : String :=
  String.mk (List.replicate (2 * lvl) ' ')

mutual

/-- Model of `json.dumps(j, indent=2, ensure_ascii=False)` at a nesting
level: containers spread over lines, item separator a comma, key separator
a colon and space, empty containers printed inline. -/
def dumpsVal : Json → Nat → String
  | .null, _ => "null"
  | .bool true, _ => "true"
  | .bool false, _ => "false"
  | .num n, _ => numRender n
  | .str s, _ => dumpStrLit s
  | .arr [], _ => "[]"
  | .arr (x :: xs), lvl =>
      "[\n" ++ dumpsElems (x :: xs) (lvl + 1) ++ "\n" ++ indentStr lvl ++ "]"
  | .obj [], _ => sLB ++ sRB
  | .obj (f :: fs), lvl =>
      sLB ++ "\n" ++ dumpsFields (f :: fs) (lvl + 1) ++ "\n" ++
        indentStr lvl ++ sRB

/-- Lines for the elements of a JSON array under `indent=2`. -/
def dumpsElems : List Json → Nat → String
  | [], _ => ""
  | [x], lvl => indentStr lvl ++ dumpsVal x lvl
  | x :: y :: xs, lvl =>
      indentStr lvl ++ dumpsVal x lvl ++ ",\n" ++ dumpsElems (y :: xs) lvl

/-- Lines for the fields of a JSON object under `indent=2`. -/
def dumpsFields : List (String × Json) → Nat → String
  | [], _ => ""
  | [(k, v)], lvl => indentStr lvl ++ dumpStrLit k ++ ": " ++ dumpsVal v lvl
  | (k, v) :: g :: fs, lvl =>
      indentStr lvl ++ dumpStrLit k ++ ": " ++ dumpsVal v lvl ++ ",\n" ++
        dumpsFields (g :: fs) lvl

end

/-- Model of the source's `json.dumps(result, indent=2, ensure_ascii=False)`
call (top level, nesting level zero). -/
def dumpsTop (j : Json) : String := dumpsVal j 0

mutual

/-- Model of Python `str()`/`repr()` on a decoded JSON value, as interpolated
by the source's f-strings: `repr` is used inside containers (strings get
single quotes there, approximating CPython's quote selection). -/
def pyRepr : Json → String
  | .null => "None"
  | .bool true => "True"
  | .bool false => "False"
  | .num n => numRender n
  | .str s => "'" ++ s ++ "'"
  | .arr l => "[" ++ pyReprElems l ++ "]"
  | .obj fs => sLB ++ pyReprFields fs ++ sRB

/-- Comma-separated `repr` forms of list elements. -/
def pyReprElems : List Json → String
  | [] => ""
  | [x] => pyRepr x
  | x :: y :: xs => pyRepr x ++ ", " ++ pyReprElems (y :: xs)

/-- Comma-separated `repr` forms of dict items. -/
def pyReprFields : List (String × Json) → String
  | [] => ""
  | [(k, v)] => "'" ++ k ++ "': " ++ pyRepr v
  | (k, v) :: g :: fs =>
      "'" ++ k ++ "': " ++ pyRepr v ++ ", " ++ pyReprFields (g :: fs)

end

/-- Model of Python `str(j)` on a decoded JSON value: the bare text for
strings, the `repr` rendering otherwise. -/
def pyStr (j : Json) : String :=
  match j with
  | .str s => s
  | _ => pyRepr j

/-- Whitespace skipping of the JSON grammar (space, tab, newline, carriage
return), as `json.loads` accepts between tokens. -/
def skipWs : List Char → List Char
  | [] => []
  | c :: rest =>
      if c = ' ' ∨ c = '\t' ∨ c = '\n' ∨ c = '\r' then skipWs rest
      else c :: rest

/-- Value of a hexadecimal digit character, if it is one. -/
def hexVal (c : Char) : Option Nat :=
  if '0' ≤ c ∧ c ≤ '9' then some (c.toNat - 48)
  else if 'a' ≤ c ∧ c ≤ 'f' then some (c.toNat - 87)
  else if 'A' ≤ c ∧ c ≤ 'F' then some (c.toNat - 55)
  else none

/-- Body of a JSON string literal (the opening quote already consumed),
returning the decoded string and the rest of the input. Raw control
characters are rejected, as `json.loads` does in its default strict mode;
a `\u` escape in the surrogate range decodes to U+FFFD (Lean strings hold
Unicode scalar values, so lone surrogates are approximated). -/
def parseStrChars : List Char → List Char → Option (String × List Char)
  | [], _ => none
  | c :: rest, acc =>
    if c = '"' then some (String.mk acc.reverse, rest)
    else if c = '\\' then
      match rest with
      | [] => none
      | e :: rest2 =>
        if e = '"' then parseStrChars rest2 ('"' :: acc)
        else if e = '\\' then parseStrChars rest2 ('\\' :: acc)
        else if e = '/' then parseStrChars rest2 ('/' :: acc)
        else if e = 'b' then parseStrChars rest2 (Char.ofNat 8 :: acc)
        else if e = 'f' then parseStrChars rest2 (Char.ofNat 12 :: acc)
        else if e = 'n' then parseStrChars rest2 ('\n' :: acc)
        else if e = 'r' then parseStrChars rest2 ('\r' :: acc)
        else if e = 't' then parseStrChars rest2 ('\t' :: acc)
        else if e = 'u' then
          match rest2 with
          | h1 :: h2 :: h3 :: h4 :: rest3 =>
            match hexVal h1, hexVal h2, hexVal h3, hexVal h4 with
            | some a, some b, some c2, some d =>
              let v := ((a * 16 + b) * 16 + c2) * 16 + d
              let ch :=
                if 0xD800 ≤ v ∧ v ≤ 0xDFFF then Char.ofNat 0xFFFD
                else Char.ofNat v
              parseStrChars rest3 (ch :: acc)
            | _, _, _, _ => none
          | _ => none
        else none
    else if c.toNat < 32 then none
    else parseStrChars rest (c :: acc)

/-- Longest leading run of decimal digits, and the rest of the input. -/
def takeDigits : List Char → List Char × List Char
  | [] => ([], [])
  | c :: rest =>
    if c.isDigit then
      let p := takeDigits rest
      (c :: p.1, p.2)
    else ([], c :: rest)

/-- Numeric value of a digit run. -/
def digitsVal (ds : List Char) : Nat :=
  ds.foldl (fun a c => a * 10 + (c.toNat - 48)) 0

/-- Optional fraction part of a JSON number: its digits, the rest of the
input, and whether a fraction was present; `none` on a bare point. -/
def parseFrac (cs : List Char) : Option (List Char × List Char × Bool) :=
  match cs with
  | c :: rest =>
    if c = '.' then
      let p := takeDigits rest
      if p.1.isEmpty then none else some (p.1, p.2, true)
    else some ([], cs, false)
  | [] => some ([], cs, false)

/-- Optional exponent part of a JSON number: its signed value, the rest of
the input, and whether an exponent was present; `none` on a malformed one. -/
def parseExp (cs : List Char) : Option (Int × List Char × Bool) :=
  match cs with
  | c :: rest =>
    if c = 'e' ∨ c = 'E' then
      let sr : Int × List Char :=
        match rest with
        | c2 :: rest2 =>
          if c2 = '+' then (1, rest2)
          else if c2 = '-' then (-1, rest2)
          else (1, rest)
        | [] => (1, rest)
      let p := takeDigits sr.2
      if p.1.isEmpty then none
      else some (sr.1 * (digitsVal p.1 : Int), p.2, true)
    else some (0, cs, false)
  | [] => some (0, cs, false)

/-- JSON number parse at the head of the input, following the grammar
`json.loads` enforces (a leading zero admits no further integer digits). -/
def parseNum (cs : List Char) : Option (JNum × List Char) :=
  let sr : Bool × List Char :=
    match cs with
    | c :: rest => if c = '-' then (true, rest) else (false, cs)
    | [] => (false, cs)
  let ip := takeDigits sr.2
  if ip.1.isEmpty then none
  else if ip.1.length > 1 ∧ ip.1.headD '0' = '0' then none
  else
    match parseFrac ip.2 with
    | none => none
    | some (fds, cs3, hasFrac) =>
      match parseExp cs3 with
      | none => none
      | some (eVal, cs4, hasExp) =>
        let mag : Int := (digitsVal (ip.1 ++ fds) : Int)
        some (⟨hasFrac || hasExp, if sr.1 then -mag else mag,
               eVal - (fds.length : Int)⟩, cs4)

/-- Consume an expected literal character sequence. -/
def dropLit : List Char → List Char → Option (List Char)
  | [], cs => some cs
  | l :: ls, c :: cs => if c = l then dropLit ls cs else none
  | _ :: _, [] => none

mutual

/-- Recursive-descent JSON value parse, fuelled for termination; the fuel
chosen by `json_loads` is ample for any input that `json.loads` accepts. -/
def parseVal : Nat → List Char → Option (Json × List Char)
  | 0, _ => none
  | fuel + 1, cs =>
    match skipWs cs with
    | [] => none
    | c :: rest =>
      if c = lbrace then parseObjRest fuel rest []
      else if c = '[' then parseArrRest fuel rest []
      else if c = '"' then
        match parseStrChars rest [] with
        | some (s, r) => some (Json.str s, r)
        | none => none
      else if c = 't' then
        match dropLit ['r', 'u', 'e'] rest with
        | some r => some (Json.bool true, r)
        | none => none
      else if c = 'f' then
        match dropLit ['a', 'l', 's', 'e'] rest with
        | some r => some (Json.bool false, r)
        | none => none
      else if c = 'n' then
        match dropLit ['u', 'l', 'l'] rest with
        | some r => some (Json.null, r)
        | none => none
      else if c = '-' ∨ c.isDigit then
        match parseNum (c :: rest) with
        | some (n, r) => some (Json.num n, r)
        | none => none
      else none

/-- Members of a JSON object after its opening brace (no trailing comma,
duplicate keys collapsed with the last value winning, as in Python). -/
def parseObjRest : Nat → List Char → List (String × Json) →
    Option (Json × List Char)
  | 0, _, _ => none
  | fuel + 1, cs, acc =>
    match skipWs cs with
    | [] => none
    | c :: rest =>
      if c = rbrace then
        if acc.isEmpty then some (Json.obj [], rest) else none
      else if c = '"' then
        match parseStrChars rest [] with
        | none => none
        | some (k, r1) =>
          match skipWs r1 with
          | c2 :: r2 =>
            if c2 = ':' then
              match parseVal fuel r2 with
              | none => none
              | some (v, r3) =>
                let acc2 := setField acc k v
                match skipWs r3 with
                | c3 :: r4 =>
                  if c3 = ',' then parseObjRest fuel r4 acc2
                  else if c3 = rbrace then some (Json.obj acc2, r4)
                  else none
                | [] => none
            else none
          | [] => none
      else none

/-- Elements of a JSON array after its opening bracket (no trailing
comma). -/
def parseArrRest : Nat → List Char → List Json → Option (Json × List Char)
  | 0, _, _ => none
  | fuel + 1, cs, acc =>
    match skipWs cs with
    | [] => none
    | c :: rest =>
      if c = ']' then
        if acc.isEmpty then some (Json.arr [], rest) else none
      else
        match parseVal fuel (c :: rest) with
        | none => none
        | some (v, r1) =>
          let acc2 := acc ++ [v]
          match skipWs r1 with
          | c2 :: r2 =>
            if c2 = ',' then parseArrRest fuel r2 acc2
            else if c2 = ']' then some (Json.arr acc2, r2)
            else none
          | [] => none

end

/-- Model of Python `json.loads`: `some` of the decoded value on a complete
valid document, `none` where `json.loads` raises `JSONDecodeError`.
(The non-standard `NaN`/`Infinity` literals Python additionally accepts lie
outside the modelled number domain and are rejected here.) -/
def json_loads (s : String) : Option Json :=
  let cs := s.toList
  match parseVal (4 * cs.length + 8) cs with
  | some (v, rest) => if (skipWs rest).isEmpty then some v else none
  | none => none

/-- Candidate hosts probed by the connectivity test, in the fixed order of
`DOCKER_HOSTS` in `main.py` (lines 51-57). -/
def DOCKER_HOSTS : List String :=
  ["host.docker.internal", "localhost", "127.0.0.1", "172.17.0.1", "n8n"]

/-- Default n8n port (`DEFAULT_PORT`, line 50). -/
def DEFAULT_PORT : Nat := 5678

/-- Retry attempt budget of the transport (`MAX_RETRIES`, line 58). -/
def MAX_RETRIES : Nat := 3

/-- Model of `build_url` (lines 60-62): `http://{host}:{port}{path}`. -/
def build_url (host : String) (port : Nat) (path : String) : String :=
  "http://" ++ host ++ ":" ++ toString port ++ path

/-- Python truthiness of a string: the empty string is falsy. -/
def strFalsy (s : String) : Bool := s.data.isEmpty

/-- Outcome of one connectivity probe of a candidate host: an HTTP status, or
any exception (connection refused, timeout, DNS failure), which the source
swallows (lines 137-139). -/
inductive ProbeOutcome where
  | status (n : Nat)
  | exn

/-- Whether a probe outcome counts as success in the source's check
`response.status == 200` (line 133). -/
def probeSuccess : ProbeOutcome → Bool
  | .status n => n == 200
  | .exn => false

/-- Iteration of `test_n8n_connectivity` (lines 121-141) over a candidate
list, also returning the list of hosts actually probed (instrumentation for
the stop-on-first-success property; the source returns only the pair). -/
def connLoop (conn : String → ProbeOutcome) :
    List String → (Bool × String) × List String
  | [] => ((false, "No n8n instance accessible"), [])
  | host :: rest =>
    match conn host with
    | .status n =>
        if n = 200 then ((true, build_url host DEFAULT_PORT ""), [host])
        else
          let p := connLoop conn rest
          (p.1, host :: p.2)
    | .exn =>
        let p := connLoop conn rest
        (p.1, host :: p.2)

/-- Model of `test_n8n_connectivity` (lines 121-141): probe `DOCKER_HOSTS` in
order, return `(True, url)` for the first host answering 200, else the
failure sentinel. Probe failures never propagate. -/
def test_n8n_connectivity (conn : String → ProbeOutcome) : Bool × String :=
  (connLoop conn DOCKER_HOSTS).1

/-- Hosts probed by a run of the connectivity test (instrumentation). -/
def probedHosts (conn : String → ProbeOutcome) : List String :=
  (connLoop conn DOCKER_HOSTS).2

/-- Line scan of `parse_sse_response` (lines 147-151): the first `data: `
frame whose payload is non-empty and not the `[DONE]` end marker is
JSON-decoded; a decode failure raises inside the enclosing `try`, so the
whole call yields `None`. -/
def sseScan : List String → Option Json
  | [] => none
  | line :: rest =>
    if strStarts line "data: " then
      let data_part := strDropN line 6
      if !data_part.data.isEmpty ∧ data_part ≠ "[DONE]" then
        json_loads data_part
      else sseScan rest
    else sseScan rest

/-- Model of `parse_sse_response` (lines 143-154): strip the text, scan its
lines for the first usable `data: ` frame and JSON-decode its payload; with
no usable frame, or on a decode failure, the call yields `None`. -/
def parse_sse_response (response_text : String) : Option Json :=
  sseScan (pySplitAll (pyStrip response_text) "\n")

/-- The client's mutable attributes (`N8nMCPClient.__init__`, lines 106-115).
`available_tools` is a `Json` value because the source can assign any decoded
value to it (line 320 stores `result.get("tools", [])` unchecked). -/
structure SessionState where
  endpoint_path : String
  base_url : Option String
  available_tools : Json
  initialized : Bool
  server_capabilities : Json
  session_id : Option String
  protocol_version : String

/-- A fresh client state as `__init__` builds it (the protocol version is the
construction-date string, taken here as a parameter). -/
def mkClient (endpoint_path protocol_version : String) : SessionState :=
  { endpoint_path := endpoint_path
    base_url := none
    available_tools := Json.arr []
    initialized := false
    server_capabilities := Json.obj []
    session_id := none
    protocol_version := protocol_version }

/-- One HTTP response as the transport observes it: status code, the optional
`Mcp-Session-Id` header, the `Content-Type` header (empty when absent, as
`headers.get("Content-Type", "")` yields), and the body text. -/
structure HttpResponse where
  status : Nat
  sessionHeader : Option String
  contentType : String
  body : String

/-- Outcome of one transport attempt: a timeout (`asyncio.TimeoutError`), any
other network exception, or an HTTP response. -/
inductive AttemptOutcome where
  | timeout
  | netError
  | response (r : HttpResponse)

/-- Result of a `send_mcp_request` call: the returned value (`None` is
modelled as `none`), the state after the call, the number of attempts
actually executed, and the backoff sleeps performed (in seconds). -/
structure SendResult where
  ret : Option Json
  state : SessionState
  attemptsUsed : Nat
  sleeps : List Nat

/-- Session-header adoption performed on every response (lines 189-191). -/
def adoptSession (st : SessionState) (r : HttpResponse) : SessionState :=
  match r.sessionHeader with
  | some sid => { st with session_id := some sid }
  | none => st

/-- The fixed acknowledgement object returned for HTTP 202 (line 210). -/
def acceptedJson : Json := Json.obj [("status", Json.str "accepted")]

/-- Value produced by the HTTP-200 branch (lines 193-206): for an
event-stream content type, the first SSE frame provided it is truthy (the
source's `if sse_data:`); otherwise the JSON-decoded body. `none` means the
branch falls through to the next loop iteration. -/
def responseDecode (r : HttpResponse) : Option Json :=
  if strContains r.contentType "text/event-stream" then
    match parse_sse_response r.body with
    | some sseData => if truthy sseData then some sseData else none
    | none => none
  else json_loads r.body

/-- The guard `if not self.base_url` (line 158): true when the base URL is
unset or empty. -/
def noBaseUrl (st : SessionState) : Bool :=
  match st.base_url with
  | none => true
  | some s => strFalsy s

/-- Retry loop of `send_mcp_request` (lines 163-243). `attempt` is the Python
loop variable; the fuel equals the remaining iterations of
`range(MAX_RETRIES)`. Per attempt: adopt any session header; on 200 return
the decoded value or fall through to the next iteration on decode failure
(the source has no `return` on that path); on 202 return the acknowledgement
object; on 400 return `None`; on 404 clear `session_id` and `initialized`
and return `None`; on 5xx sleep `2^attempt` and retry while attempts remain;
on any other status return `None`. Timeouts and other exceptions sleep and
retry while attempts remain, else return `None`. An exhausted loop falls off
the function's end, returning `None`. -/
def sendLoop (outcomes : Nat → AttemptOutcome) :
    Nat → Nat → SessionState → List Nat → SendResult
  | 0, attempt, st, sleeps => ⟨none, st, attempt, sleeps⟩
  | fuel + 1, attempt, st, sleeps =>
    match outcomes attempt with
    | .timeout =>
        if attempt < MAX_RETRIES - 1 then
          sendLoop outcomes fuel (attempt + 1) st (sleeps ++ [2 ^ attempt])
        else ⟨none, st, attempt + 1, sleeps⟩
    | .netError =>
        if attempt < MAX_RETRIES - 1 then
          sendLoop outcomes fuel (attempt + 1) st (sleeps ++ [2 ^ attempt])
        else ⟨none, st, attempt + 1, sleeps⟩
    | .response r =>
        let st2 := adoptSession st r
        if r.status = 200 then
          match responseDecode r with
          | some d => ⟨some d, st2, attempt + 1, sleeps⟩
          | none => sendLoop outcomes fuel (attempt + 1) st2 sleeps
        else if r.status = 202 then ⟨some acceptedJson, st2, attempt + 1, sleeps⟩
        else if r.status = 400 then ⟨none, st2, attempt + 1, sleeps⟩
        else if r.status = 404 then
          ⟨none, { st2 with session_id := none, initialized := false },
            attempt + 1, sleeps⟩
        else if 500 ≤ r.status ∧ attempt < MAX_RETRIES - 1 then
          sendLoop outcomes fuel (attempt + 1) st2 (sleeps ++ [2 ^ attempt])
        else ⟨none, st2, attempt + 1, sleeps⟩

/-- Model of `send_mcp_request` (lines 156-243), the request body abstracted
away (it never influences control flow), the per-attempt network behaviour
supplied by `outcomes`. Returns `none` immediately when no base URL is set
(lines 158-160). -/
def send_mcp_request (st : SessionState) (outcomes : Nat → AttemptOutcome) :
    SendResult :=
  if noBaseUrl st then ⟨none, st, 0, []⟩
  else sendLoop outcomes MAX_RETRIES 0 st []

/-- Return value of the retry loop as a function of the outcomes alone (the
loop's control flow never reads the threaded state). -/
def sendRetLoop (outcomes : Nat → AttemptOutcome) : Nat → Nat → Option Json
  | 0, _ => none
  | fuel + 1, attempt =>
    match outcomes attempt with
    | .timeout =>
        if attempt < MAX_RETRIES - 1 then sendRetLoop outcomes fuel (attempt + 1)
        else none
    | .netError =>
        if attempt < MAX_RETRIES - 1 then sendRetLoop outcomes fuel (attempt + 1)
        else none
    | .response r =>
        if r.status = 200 then
          match responseDecode r with
          | some d => some d
          | none => sendRetLoop outcomes fuel (attempt + 1)
        else if r.status = 202 then some acceptedJson
        else if r.status = 400 then none
        else if r.status = 404 then none
        else if 500 ≤ r.status ∧ attempt < MAX_RETRIES - 1 then
          sendRetLoop outcomes fuel (attempt + 1)
        else none

/-- Return value of `send_mcp_request` once a base URL is set. -/
def sendRet (outcomes : Nat → AttemptOutcome) : Option Json :=
  sendRetLoop outcomes MAX_RETRIES 0

/-- The fixed built-in fallback tool set (lines 339-346). -/
def fallbackTools : Json := Json.arr
  [ Json.obj [("name", Json.str "Find_Emails"),
      ("description", Json.str "Find and retrieve emails from Gmail")],
    Json.obj [("name", Json.str "Send_Email"),
      ("description", Json.str "Send an email via Gmail")],
    Json.obj [("name", Json.str "Create_an_event"),
      ("description", Json.str "Create a calendar event in Google Calendar")],
    Json.obj [("name", Json.str "Find_single_event"),
      ("description", Json.str "Find a specific calendar event")],
    Json.obj [("name", Json.str "Find_multiple_events"),
      ("description", Json.str "Find multiple calendar events")],
    Json.obj [("name", Json.str "Update_event"),
      ("description", Json.str "Update an existing calendar event")] ]

/-- The dynamic operations the tool-logging loop body performs on one tool
descriptor (lines 325-329): `.get` of name, description and input schema,
`.keys()` of the schema's properties, `.get` of its required list. Any of
them raises on an ill-shaped descriptor. -/
def elemLogOk (tool : Json) : Except PyExn Unit := do
  let _ ← pyGet tool "name" (Json.str "Unknown")
  let _ ← pyGet tool "description" (Json.str "No description")
  let schema ← pyGet tool "inputSchema" (Json.obj [])
  let props ← pyGet schema "properties" (Json.obj [])
  let _ ← pyKeys props
  let _ ← pyGet schema "required" (Json.arr [])
  pure ()

/-- The logging loop body over a list of tool descriptors. -/
def logToolsList : List Json → Except PyExn Unit
  | [] => .ok ()
  | t :: rest => do
      let _ ← elemLogOk t
      logToolsList rest

/-- The logging loop `for tool in tools:` (lines 324-333) over whatever value
was stored as the tool list: iterating a list visits its elements; iterating
a string or a dict visits strings, whose `.get` raises immediately;
iterating a non-iterable value raises a `TypeError`. -/
def logToolsOk (tools : Json) : Except PyExn Unit :=
  match tools with
  | .arr l => logToolsList l
  | .str s =>
      if s.data.isEmpty then .ok ()
      else .error (.attributeError "'str' object has no attribute 'get'")
  | .obj fs =>
      match fs with
      | [] => .ok ()
      | _ => .error (.attributeError "'str' object has no attribute 'get'")
  | t => .error (.typeError
      ("'" ++ pyTypeName t ++ "' object is not iterable"))

/-- Model of `fetch_available_tools` (lines 304-352), the tools/list request
outcomes supplied by `toolsO`. Control flow: send the request; when the
response is truthy and contains a `result`, read `result.get("tools", [])`;
a truthy tool value is stored and logged (returning `True` on success);
otherwise fall through to the fixed fallback set (returning `True`). Any
modelled Python exception is caught by the `except` at line 350: the
function returns `False` with the state as already mutated. -/
def fetch_available_tools (st : SessionState)
    (toolsO : Nat → AttemptOutcome) : Bool × SessionState :=
  let res := send_mcp_request st toolsO
  let st1 := res.state
  match res.ret with
  | none => (true, { st1 with available_tools := fallbackTools })
  | some t =>
    if truthy t = false then
      (true, { st1 with available_tools := fallbackTools })
    else
      match pyContains t "result" with
      | .error _ => (false, st1)
      | .ok false => (true, { st1 with available_tools := fallbackTools })
      | .ok true =>
        match pySubscript t "result" with
        | .error _ => (false, st1)
        | .ok resJ =>
          match pyGet resJ "tools" (Json.arr []) with
          | .error _ => (false, st1)
          | .ok toolsJ =>
            if truthy toolsJ then
              let st2 := { st1 with available_tools := toolsJ }
              match logToolsOk toolsJ with
              | .error _ => (false, st2)
              | .ok _ => (true, st2)
            else (true, { st1 with available_tools := fallbackTools })

/-- Coarse protocol events, for stating which handshake steps a call
executed: the connectivity resolution, the `initialize` request, the
`notifications/initialized` notification, the `tools/list` request, and a
`tools/call` dispatch. -/
inductive Event where
  | resolve
  | initRequest
  | initializedNotification
  | toolsList
  | toolsCall
deriving DecidableEq

/-- Occurrences of an event in a trace. -/
def countEvent (e : Event) (tr : List Event) : Nat :=
  (tr.filter (fun x => x = e)).length

/-- Network environment of one `initialize()` run: probe outcomes for the
connectivity test and per-attempt outcomes for each of the three requests
the handshake sends. -/
structure InitEnv where
  conn : String → ProbeOutcome
  initO : Nat → AttemptOutcome
  notifO : Nat → AttemptOutcome
  toolsO : Nat → AttemptOutcome

/-- The part of `initialize()` after a successful connectivity test (lines
258-298), with the base URL already stored. A falsy response, a response
without `result`, or any modelled Python exception (caught by the `except`
at line 300) aborts with `False`; otherwise the server capabilities are
recorded, the `initialized` notification is sent (response ignored), the
tool list is fetched (result ignored), `initialized` is set, and the run
reports `True`. The returned trace lists the handshake steps executed after
the `initialize` request itself. -/
def initAfterConn (st : SessionState) (env : InitEnv) :
    Bool × SessionState × List Event :=
  let r1 := send_mcp_request st env.initO
  let st1 := r1.state
  match r1.ret with
  | none => (false, st1, [])
  | some resp =>
    if truthy resp = false then (false, st1, [])
    else
      match pyContains resp "result" with
      | .error _ => (false, st1, [])
      | .ok false => (false, st1, [])
      | .ok true =>
        match pySubscript resp "result" with
        | .error _ => (false, st1, [])
        | .ok resultJ =>
          match pyGet resultJ "capabilities" (Json.obj []) with
          | .error _ => (false, st1, [])
          | .ok caps =>
            let st2 := { st1 with server_capabilities := caps }
            match pyGet resultJ "serverInfo" (Json.obj []) with
            | .error _ => (false, st2, [])
            | .ok sInfo =>
              match pyGet sInfo "name" (Json.str "Unknown") with
              | .error _ => (false, st2, [])
              | .ok _ =>
                match pyGet sInfo "version" (Json.str "?") with
                | .error _ => (false, st2, [])
                | .ok _ =>
                  let r2 := send_mcp_request st2 env.notifO
                  let st3 := r2.state
                  let p := fetch_available_tools st3 env.toolsO
                  let st4 := { p.2 with initialized := true }
                  (true, st4,
                    [Event.initializedNotification, Event.toolsList])

/-- Model of `initialize()` (lines 245-302). The body runs under the
session lock; concurrent invocations therefore execute this function
sequentially (see `initCalls`). A failed connectivity test halts with
`False` before any request; otherwise the base URL is stored and the
handshake proper runs. The trace records the executed steps in order. -/
def initClient (st : SessionState) (env : InitEnv) :
    Bool × SessionState × List Event :=
  match test_n8n_connectivity env.conn with
  | (false, _) => (false, st, [Event.resolve])
  | (true, url) =>
    let st1 := { st with base_url := some url }
    let p := initAfterConn st1 env
    (p.1, p.2.1, Event.resolve :: Event.initRequest :: p.2.2)

/-- Sequential composition of `n` `initialize()` runs on the shared state,
the `i`-th run using environment `envs i`. This is the exact semantics of
`n` concurrent `initialize()` invocations: the whole body of `initialize()`
executes under `self._session_lock` on one event loop, so the critical
sections run back to back in lock-acquisition order, each against the state
the previous one left. -/
def initCalls (st : SessionState) (envs : Nat → InitEnv) :
    Nat → SessionState × List Event
  | 0 => (st, [])
  | n + 1 =>
    let p := initCalls st envs n
    let q := initClient p.1 (envs n)
    (q.2.1, p.2 ++ q.2.2)

/-- Interpretation of a `tools/call` transport response by `call_tool`
(lines 375-393). A falsy response (including `None`) yields the fixed
no-response string (`if not tool_response:`); a response whose `error`
lookup succeeds yields the code/message string; a response whose `result`
lookup succeeds yields it pretty-printed; otherwise the fixed
unexpected-format string. Any modelled Python exception is caught by the
`except` at line 390 and rendered with the tool-execution-error prefix. -/
def interpretToolResponse (resp : Option Json) : String :=
  match resp with
  | none => "❌ No response from MCP server"
  | some r =>
    if truthy r = false then "❌ No response from MCP server"
    else
      match pyContains r "error" with
      | .error e => "❌ Tool execution error: " ++ pyExnMsg e
      | .ok true =>
        match pySubscript r "error" with
        | .error e => "❌ Tool execution error: " ++ pyExnMsg e
        | .ok errJ =>
          match pyGet errJ "code" (Json.str "unknown") with
          | .error e => "❌ Tool execution error: " ++ pyExnMsg e
          | .ok codeJ =>
            match pyGet errJ "message" (Json.str "Unknown error") with
            | .error e => "❌ Tool execution error: " ++ pyExnMsg e
            | .ok msgJ =>
                "❌ MCP error " ++ pyStr codeJ ++ ": " ++ pyStr msgJ
      | .ok false =>
        match pyContains r "result" with
        | .error e => "❌ Tool execution error: " ++ pyExnMsg e
        | .ok true =>
          match pySubscript r "result" with
          | .error e => "❌ Tool execution error: " ++ pyExnMsg e
          | .ok resJ => dumpsTop resJ
        | .ok false => "❌ Unexpected response format"

/-- Network environment of one `call_tool` invocation: an initialization
environment (used only when the client is not yet initialized) and the
per-attempt outcomes of the `tools/call` request itself. -/
structure CallEnv where
  initEnv : InitEnv
  callO : Nat → AttemptOutcome

/-- The dispatch part of `call_tool` (lines 362-393): send the `tools/call`
request and interpret its response. -/
def callDispatch (st : SessionState) (env : CallEnv) (tr : List Event) :
    String × SessionState × List Event :=
  let r := send_mcp_request st env.callO
  (interpretToolResponse r.ret, r.state, tr ++ [Event.toolsCall])

/-- Model of `call_tool` (lines 354-393). When the client is not
initialized, `initialize()` runs first; its failure short-circuits to the
fixed not-initialized string (line 357) without dispatching. The tool name
and arguments shape the request body only, which the transport model
abstracts away. -/
def call_tool (st : SessionState) (env : CallEnv)
    (tool_name : String) (arguments : Json) :
    String × SessionState × List Event :=
  if st.initialized = false then
    match initClient st env.initEnv with
    | (false, st1, tr) => ("❌ MCP client not initialized", st1, tr)
    | (true, st1, tr) => callDispatch st1 env tr
  else callDispatch st env []

/-- The text after the first occurrence of `sep`, modelling the Python
expression `s.split(sep, 1)[1]` under the assumption that `sep` occurs. -/
def pySplitAfter (s sep : String) : String :=
  match findSplit sep.data s.data with
  | some (_, post) => String.mk post
  | none => s

/-- The text before the first occurrence of `sep`, modelling the Python
expression `s.split(sep, 1)[0]`. -/
def pySplitBefore (s sep : String) : String :=
  match findSplit sep.data s.data with
  | some (pre, _) => String.mk pre
  | none => s

/-- The brace scan of `extract_tool_call` (lines 516-526): starting from the
first `{` of the argument text, count braces and return the index of the
matching `}`, or `none` when the loop completes without the count reaching
zero. `i` is the running index and `count` the running brace count. -/
def braceScan : List Char → Int → Nat → Option Nat
  | [], _, _ => none
  | c :: rest, count, i =>
    if c = lbrace then braceScan rest (count + 1) (i + 1)
    else if c = rbrace then
      let count2 := count - 1
      if count2 = 0 then some i else braceScan rest count2 (i + 1)
    else braceScan rest count (i + 1)

/-- The tool-name half of `extract_tool_call` (lines 503-506): the text
after `TOOL:`, stripped, up to the first line break, stripped again; `none`
when the marker is absent. -/
def toolNameOf (text : String) : Option String :=
  if strContains text "TOOL:" then
    some (pyStrip (pySplitBefore (pyStrip (pySplitAfter text "TOOL:")) "\n"))
  else none

/-- The argument half of `extract_tool_call` (lines 509-533): the text after
`ARGUMENTS:`, stripped; its substring from the first `{` to the matching
`}` (balanced-brace scan), JSON-decoded. Every failure — no marker, no
brace, no balanced span, or a decode error — leaves the empty dict. -/
def argsOf (text : String) : Json :=
  if strContains text "ARGUMENTS:" then
    let args_text := pyStrip (pySplitAfter text "ARGUMENTS:")
    let cs := args_text.toList
    match cs.findIdx? (fun c => c = lbrace) with
    | none => Json.obj []
    | some start_idx =>
      match braceScan (cs.drop start_idx) 0 start_idx with
      | none => Json.obj []
      | some end_idx =>
        let args_json := String.mk ((cs.take (end_idx + 1)).drop start_idx)
        match json_loads args_json with
        | some v => v
        | none => Json.obj []
  else Json.obj []

/-- Model of `extract_tool_call` (lines 496-539): no directive without both
the `ACTION:` marker and the `call_tool` token; otherwise the extracted
tool name (which may be `none` when `TOOL:` is absent) together with the
decoded argument object, the empty dict on any argument-extraction
failure. Nothing in the body can raise past the inner handler, so the
outer `except` (line 537) is unreachable. -/
def extract_tool_call (text : String) : Option String × Json :=
  if strContains text "ACTION:" ∧ strContains text "call_tool" then
    (toolNameOf text, argsOf text)
  else (none, Json.obj [])

/-- A well-shaped (or absent) `serverInfo` field of a handshake result: the
`.get` calls the source's logging line performs on it succeed exactly when
the field, defaulted to the empty dict, is a dict. -/
def serverInfoOk (rm : List (String × Json)) : Prop :=
  ∃ sm, (lookupField rm "serverInfo").getD (Json.obj []) = Json.obj sm

/-- The three zero-tool response shapes named by the specification for the
`tools/list` fetch: a null (absent) response, an object response without a
`result` field, and a result whose `tools` entry is absent or the empty
list. -/
def zeroTools (o : Option Json) : Prop :=
  o = none ∨
  (∃ fs, o = some (Json.obj fs) ∧ lookupField fs "result" = none) ∨
  (∃ fs rm, o = some (Json.obj fs) ∧
    lookupField fs "result" = some (Json.obj rm) ∧
    (lookupField rm "tools" = none ∨
      lookupField rm "tools" = some (Json.arr [])))

/-- The argument-extraction failure paths of `extract_tool_call`: the
`ARGUMENTS:` marker is absent, no `{` follows it, the brace scan finds no
balanced span, or the scanned span fails to JSON-decode. On each of these
the source leaves `arguments` as the empty dict. -/
def argsDecodeFailed (text : String) : Prop :=
  strContains text "ARGUMENTS:" = false ∨
  (match (pyStrip (pySplitAfter text "ARGUMENTS:")).toList.findIdx?
      (fun c => c = lbrace) with
   | none => True
   | some start_idx =>
     match braceScan
         ((pyStrip (pySplitAfter text "ARGUMENTS:")).toList.drop start_idx)
         0 start_idx with
     | none => True
     | some end_idx =>
       json_loads (String.mk
         (((pyStrip (pySplitAfter text "ARGUMENTS:")).toList.take
            (end_idx + 1)).drop start_idx)) = none)

/-- A fresh client for the concrete scenarios below. -/
def mkClientW : SessionState := mkClient "/mcp/demo" "2025-09-15"

/-- A client with a resolved base URL, not yet initialized. -/
def stW : SessionState :=
  { mkClientW with base_url := some "http://localhost:5678" }

/-- A client with a resolved base URL, already initialized. -/
def stInitW : SessionState := { stW with initialized := true }

/-- An HTTP 404 response carrying a session header. -/
def rsp404W : HttpResponse :=
  ⟨404, some "sess-1234", "application/json", ""⟩

/-- Outcomes answering 404 on every attempt. -/
def o404W : Nat → AttemptOutcome := fun _ => .response rsp404W

/-- An HTTP 400 response. -/
def rsp400W : HttpResponse :=
  ⟨400, none, "application/json", "bad request"⟩

/-- Outcomes answering 400 on every attempt. -/
def o400W : Nat → AttemptOutcome := fun _ => .response rsp400W

/-- A 200 response whose body is not valid JSON. -/
def rspBadBodyW : HttpResponse :=
  ⟨200, none, "application/json", "not json"⟩

/-- Outcomes: an undecodable 200 on attempt 1, a decodable empty-object 200
on attempt 2. -/
def oBadThenGoodW : Nat → AttemptOutcome := fun i =>
  if i = 0 then .response rspBadBodyW
  else .response ⟨200, none, "application/json", "\x7b\x7d"⟩

/-- Outcomes: an undecodable 200 on every attempt. -/
def oAllBadW : Nat → AttemptOutcome := fun _ => .response rspBadBodyW

/-- Per-attempt outcomes of a successful `initialize` request. -/
def oInitW : Nat → AttemptOutcome := fun _ =>
  .response ⟨200, none, "application/json", "\x7b\"result\": \x7b\x7d\x7d"⟩

/-- Per-attempt outcomes of an acknowledged notification. -/
def oNotifW : Nat → AttemptOutcome := fun _ => .response ⟨202, none, "", ""⟩

/-- Per-attempt outcomes of a `tools/list` request answering an empty tool
list. -/
def oToolsEmptyW : Nat → AttemptOutcome := fun _ =>
  .response ⟨200, none, "application/json",
    "\x7b\"result\": \x7b\"tools\": []\x7d\x7d"⟩

/-- A fully successful initialization environment whose tools/list fetch
yields zero tools. -/
def envOKW : InitEnv :=
  { conn := fun _ => .status 200
    initO := oInitW
    notifO := oNotifW
    toolsO := oToolsEmptyW }

/-- Per-attempt outcomes of a `tools/call` request answering
`{result: {ok: true}}`. -/
def oCallOkW : Nat → AttemptOutcome := fun _ =>
  .response ⟨200, none, "application/json",
    "\x7b\"result\": \x7b\"ok\": true\x7d\x7d"⟩

/-- A call environment over the successful initialization environment. -/
def callEnvW : CallEnv := { initEnv := envOKW, callO := oCallOkW }

/-- A probe environment where only the third candidate host answers 200. -/
def connOneW : String → ProbeOutcome := fun h =>
  if h = "127.0.0.1" then .status 200 else .exn

/-- A probe environment where no candidate host answers. -/
def connNoneW : String → ProbeOutcome := fun _ => .exn

/-- The value returned by the retry loop depends only on the outcomes, never
on the threaded state. -/
theorem sendLoop_ret (o : Nat → AttemptOutcome) :
    ∀ fuel attempt st sleeps,
      (sendLoop o fuel attempt st sleeps).ret = sendRetLoop o fuel attempt := by
  intro fuel
  induction fuel with
  | zero => intro attempt st sleeps; rfl
  | succ fuel ih =>
    intro attempt st sleeps
    cases ho : o attempt with
    | timeout =>
      by_cases h : attempt < MAX_RETRIES - 1 <;>
        simp [sendLoop, sendRetLoop, ho, h, ih]
    | netError =>
      by_cases h : attempt < MAX_RETRIES - 1 <;>
        simp [sendLoop, sendRetLoop, ho, h, ih]
    | response r =>
      by_cases h200 : r.status = 200
      · cases hd : responseDecode r <;>
          simp [sendLoop, sendRetLoop, ho, h200, hd, ih]
      · by_cases h202 : r.status = 202
        · simp [sendLoop, sendRetLoop, ho, h200, h202]
        · by_cases h400 : r.status = 400
          · simp [sendLoop, sendRetLoop, ho, h200, h202, h400]
          · by_cases h404 : r.status = 404
            · simp [sendLoop, sendRetLoop, ho, h200, h202, h400, h404]
            · by_cases h5 : 500 ≤ r.status ∧ attempt < MAX_RETRIES - 1 <;>
                simp [sendLoop, sendRetLoop, ho, h200, h202, h400, h404, h5, ih]

/-- Once a base URL is set, the value returned by `send_mcp_request` is a
function of the attempt outcomes alone. -/
theorem send_ret_eq (st : SessionState) (o : Nat → AttemptOutcome)
    (h : noBaseUrl st = false) :
    (send_mcp_request st o).ret = sendRet o := by
  simp [send_mcp_request, h, sendRet, sendLoop_ret]

/-- The retry loop leaves every session field except `session_id` and
`initialized` unchanged. -/
theorem sendLoop_frame (o : Nat → AttemptOutcome) :
    ∀ fuel attempt st sleeps,
      (sendLoop o fuel attempt st sleeps).state.base_url = st.base_url ∧
      (sendLoop o fuel attempt st sleeps).state.available_tools =
        st.available_tools ∧
      (sendLoop o fuel attempt st sleeps).state.server_capabilities =
        st.server_capabilities ∧
      (sendLoop o fuel attempt st sleeps).state.endpoint_path =
        st.endpoint_path ∧
      (sendLoop o fuel attempt st sleeps).state.protocol_version =
        st.protocol_version := by
  intro fuel
  induction fuel with
  | zero => intro attempt st sleeps; exact ⟨rfl, rfl, rfl, rfl, rfl⟩
  | succ fuel ih =>
    intro attempt st sleeps
    have hadopt : ∀ r : HttpResponse,
        (adoptSession st r).base_url = st.base_url ∧
        (adoptSession st r).available_tools = st.available_tools ∧
        (adoptSession st r).server_capabilities = st.server_capabilities ∧
        (adoptSession st r).endpoint_path = st.endpoint_path ∧
        (adoptSession st r).protocol_version = st.protocol_version := by
      intro r
      cases hh : r.sessionHeader <;> simp [adoptSession, hh]
    cases ho : o attempt with
    | timeout =>
      by_cases h : attempt < MAX_RETRIES - 1 <;>
        simp [sendLoop, ho, h, ih]
    | netError =>
      by_cases h : attempt < MAX_RETRIES - 1 <;>
        simp [sendLoop, ho, h, ih]
    | response r =>
      by_cases h200 : r.status = 200
      · cases hd : responseDecode r <;>
          simp [sendLoop, ho, h200, hd, ih, hadopt r]
      · by_cases h202 : r.status = 202
        · simp [sendLoop, ho, h200, h202, hadopt r]
        · by_cases h400 : r.status = 400
          · simp [sendLoop, ho, h200, h202, h400, hadopt r]
          · by_cases h404 : r.status = 404
            · simp [sendLoop, ho, h200, h202, h400, h404, hadopt r]
            · by_cases h5 : 500 ≤ r.status ∧ attempt < MAX_RETRIES - 1 <;>
                simp [sendLoop, ho, h200, h202, h400, h404, h5, ih, hadopt r]

/-- `send_mcp_request` leaves every session field except `session_id` and
`initialized` unchanged, whatever the outcomes. -/
theorem send_frame (st : SessionState) (o : Nat → AttemptOutcome) :
    (send_mcp_request st o).state.base_url = st.base_url ∧
    (send_mcp_request st o).state.available_tools = st.available_tools ∧
    (send_mcp_request st o).state.server_capabilities =
      st.server_capabilities ∧
    (send_mcp_request st o).state.endpoint_path = st.endpoint_path ∧
    (send_mcp_request st o).state.protocol_version = st.protocol_version := by
  by_cases h : noBaseUrl st
  · simp [send_mcp_request, h]
  · simp only [send_mcp_request, h, Bool.false_eq_true, if_false]
    exact sendLoop_frame o MAX_RETRIES 0 st []

/-- A URL built by `build_url` is never the empty string (so the transport's
`if not self.base_url` guard passes after a successful connectivity test). -/
theorem build_url_not_falsy (host : String) (port : Nat) (path : String) :
    strFalsy (build_url host port path) = false := by
  obtain ⟨hl⟩ := host
  obtain ⟨pl⟩ := path
  rfl

/-- On a candidate list whose prefix all fails and whose next host probes
200, the connectivity loop succeeds with that host's URL and probes exactly
the prefix and that host. -/
theorem connLoop_first_success (conn : String → ProbeOutcome) :
    ∀ (pre : List String) (h : String) (post : List String),
      (∀ x ∈ pre, probeSuccess (conn x) = false) →
      probeSuccess (conn h) = true →
      connLoop conn (pre ++ h :: post) =
        ((true, build_url h DEFAULT_PORT ""), pre ++ [h]) := by
  intro pre
  induction pre with
  | nil =>
    intro h post _ hs
    cases hc : conn h with
    | status n =>
      have hn : n = 200 := by
        have h2 := hs
        rw [hc] at h2
        simp [probeSuccess] at h2
        exact h2
      simp [connLoop, hc, hn]
    | exn =>
      rw [hc] at hs
      simp [probeSuccess] at hs
  | cons x xs ih =>
    intro h post hpre hs
    have hx : probeSuccess (conn x) = false := hpre x (List.mem_cons_self x xs)
    have hxs : ∀ y ∈ xs, probeSuccess (conn y) = false := by
      intro y hy
      exact hpre y (List.mem_cons_of_mem x hy)
    have hrec := ih h post hxs hs
    cases hc : conn x with
    | status n =>
      have hn : ¬ n = 200 := by
        intro hn
        rw [hc, hn] at hx
        simp [probeSuccess] at hx
      simp [connLoop, hc, hn, hrec]
    | exn => simp [connLoop, hc, hrec]

/-- On a candidate list where every probe fails, the connectivity loop
returns the failure sentinel after probing every host. -/
theorem connLoop_all_fail (conn : String → ProbeOutcome) :
    ∀ hosts : List String,
      (∀ x ∈ hosts, probeSuccess (conn x) = false) →
      connLoop conn hosts = ((false, "No n8n instance accessible"), hosts) := by
  intro hosts
  induction hosts with
  | nil => intro _; rfl
  | cons x xs ih =>
    intro hall
    have hx : probeSuccess (conn x) = false := hall x (List.mem_cons_self x xs)
    have hrec := ih (fun y hy => hall y (List.mem_cons_of_mem x hy))
    cases hc : conn x with
    | status n =>
      have hn : ¬ n = 200 := by
        intro hn
        rw [hc, hn] at hx
        simp [probeSuccess] at hx
      simp [connLoop, hc, hn, hrec]
    | exn => simp [connLoop, hc, hrec]

/-- A successful connectivity test reports a `build_url`-shaped address, so
in particular a non-falsy one. -/
theorem connLoop_success_shape (conn : String → ProbeOutcome) :
    ∀ hosts : List String,
      (connLoop conn hosts).1.1 = true →
      ∃ h, (connLoop conn hosts).1.2 = build_url h DEFAULT_PORT "" := by
  intro hosts
  induction hosts with
  | nil => intro hfalse; exact absurd hfalse (by simp [connLoop])
  | cons x xs ih =>
    intro hs
    cases hc : conn x with
    | status n =>
      by_cases hn : n = 200
      · exact ⟨x, by simp [connLoop, hc, hn]⟩
      · rw [connLoop] at hs ⊢
        simp only [hc, hn, if_false] at hs ⊢
        exact ih hs
    | exn =>
      rw [connLoop] at hs ⊢
      simp only [hc] at hs ⊢
      exact ih hs

/-- An object with a bound key is truthy. -/
theorem truthy_of_lookup {fs : List (String × Json)} {k : String} {v : Json}
    (h : lookupField fs k = some v) : truthy (Json.obj fs) = true := by
  cases fs with
  | nil => simp [lookupField] at h
  | cons a as => simp [truthy]

/-- Two states sharing a base URL agree on the transport's guard. -/
theorem noBaseUrl_congr {st st' : SessionState}
    (h : st.base_url = st'.base_url) : noBaseUrl st = noBaseUrl st' := by
  unfold noBaseUrl
  rw [h]

/-- On any of the three zero-tool response shapes, the tool fetch stores
exactly the fixed fallback set and reports success. -/
theorem fetch_fallback (st : SessionState) (toolsO : Nat → AttemptOutcome)
    (hb : noBaseUrl st = false) (hz : zeroTools (sendRet toolsO)) :
    (fetch_available_tools st toolsO).1 = true ∧
    (fetch_available_tools st toolsO).2.available_tools = fallbackTools := by
  have hret : (send_mcp_request st toolsO).ret = sendRet toolsO :=
    send_ret_eq st toolsO hb
  rcases hz with hz | ⟨fs, hz, hres⟩ | ⟨fs, rm, hz, hres, htl⟩
  · rw [hz] at hret
    simp [fetch_available_tools, hret]
  · rw [hz] at hret
    rcases fs with _ | ⟨⟨k, v⟩, fs2⟩
    · simp [fetch_available_tools, hret, truthy]
    · simp [fetch_available_tools, hret, truthy, pyContains, hres]
  · rw [hz] at hret
    have htri : truthy (Json.obj fs) = true := truthy_of_lookup hres
    rcases htl with htl | htl <;>
      simp [fetch_available_tools, hret, htri, pyContains, pySubscript,
        pyGet, hres, htl, truthy]

/-- The trace of the post-connectivity handshake part is either empty (an
aborted handshake) or the notification-then-tools pair. -/
theorem initAfterConn_trace (st : SessionState) (env : InitEnv) :
    (initAfterConn st env).2.2 = [] ∨
    (initAfterConn st env).2.2 =
      [Event.initializedNotification, Event.toolsList] := by
  simp only [initAfterConn]
  cases h1 : (send_mcp_request st env.initO).ret with
  | none => simp
  | some resp =>
    by_cases ht : truthy resp = false
    · simp [ht]
    · cases h2 : pyContains resp "result" with
      | error e => simp [ht, h2]
      | ok b =>
        cases b with
        | false => simp [ht, h2]
        | true =>
          cases h3 : pySubscript resp "result" with
          | error e => simp [ht, h2, h3]
          | ok resultJ =>
            cases h4 : pyGet resultJ "capabilities" (Json.obj []) with
            | error e => simp [ht, h2, h3, h4]
            | ok caps =>
              cases h5 : pyGet resultJ "serverInfo" (Json.obj []) with
              | error e => simp [ht, h2, h3, h4, h5]
              | ok sInfo =>
                cases h6 : pyGet sInfo "name" (Json.str "Unknown") with
                | error e => simp [ht, h2, h3, h4, h5, h6]
                | ok a =>
                  cases h7 : pyGet sInfo "version" (Json.str "?") with
                  | error e => simp [ht, h2, h3, h4, h5, h6, h7]
                  | ok a2 => simp [ht, h2, h3, h4, h5, h6, h7]

/-- Under a set base URL, a handshake response shaped `{result: {...}}` with
a well-shaped (or absent) `serverInfo`, the post-connectivity handshake part
runs to completion: it records the capabilities, sends the notification,
fetches the tools, sets `initialized`, reports `True`, and emits the
notification-then-tools trace. -/
theorem initAfterConn_spec (st : SessionState) (env : InitEnv)
    (fs rm : List (String × Json))
    (hb : noBaseUrl st = false)
    (hfs : sendRet env.initO = some (Json.obj fs))
    (hrm : lookupField fs "result" = some (Json.obj rm))
    (hsi : serverInfoOk rm) :
    initAfterConn st env =
      (true,
        { (fetch_available_tools
            (send_mcp_request
              { (send_mcp_request st env.initO).state with
                  server_capabilities :=
                    (lookupField rm "capabilities").getD (Json.obj []) }
              env.notifO).state env.toolsO).2 with initialized := true },
        [Event.initializedNotification, Event.toolsList]) := by
  obtain ⟨sm, hsm⟩ := hsi
  have hret : (send_mcp_request st env.initO).ret = some (Json.obj fs) := by
    rw [send_ret_eq st env.initO hb, hfs]
  have htr : truthy (Json.obj fs) = true := truthy_of_lookup hrm
  simp only [initAfterConn, hret, htr, pyContains, pySubscript, pyGet,
    hrm, hsm, Option.isSome_some, Option.getD_some, Bool.true_eq_false,
    if_false]

/-- When the connectivity test succeeds and the handshake response is
well-shaped, `initialize()` reports `True`, ends initialized, executes the
four handshake steps in order, and — on a zero-tool `tools/list` response —
stores exactly the fallback tool set. -/
theorem initClient_spec (st : SessionState) (env : InitEnv)
    (fs rm : List (String × Json))
    (hc : (test_n8n_connectivity env.conn).1 = true)
    (hfs : sendRet env.initO = some (Json.obj fs))
    (hrm : lookupField fs "result" = some (Json.obj rm))
    (hsi : serverInfoOk rm) :
    (initClient st env).1 = true ∧
    (initClient st env).2.1.initialized = true ∧
    (initClient st env).2.2 =
      [Event.resolve, Event.initRequest, Event.initializedNotification,
        Event.toolsList] ∧
    (zeroTools (sendRet env.toolsO) →
      (initClient st env).2.1.available_tools = fallbackTools) := by
  have hshape := connLoop_success_shape env.conn DOCKER_HOSTS
  simp only [test_n8n_connectivity] at hc hshape
  obtain ⟨h, hurl⟩ := hshape hc
  rcases htc : connLoop env.conn DOCKER_HOSTS with ⟨⟨b, url⟩, probed⟩
  rw [htc] at hc hurl
  simp only at hc hurl
  subst hc
  have htest : test_n8n_connectivity env.conn = (true, url) := by
    simp only [test_n8n_connectivity, htc]
  have hb1 : noBaseUrl { st with base_url := some url } = false := by
    simp only [noBaseUrl]
    rw [hurl]
    exact build_url_not_falsy h DEFAULT_PORT ""
  have heval := initAfterConn_spec { st with base_url := some url } env fs rm
    hb1 hfs hrm hsi
  have hb2 : noBaseUrl ({ (send_mcp_request { st with base_url := some url }
      env.initO).state with
        server_capabilities :=
          (lookupField rm "capabilities").getD (Json.obj []) }) = false := by
    rw [noBaseUrl_congr
      (show ({ (send_mcp_request { st with base_url := some url }
          env.initO).state with
            server_capabilities :=
              (lookupField rm "capabilities").getD (Json.obj []) }).base_url =
        ({ st with base_url := some url } : SessionState).base_url from
        (send_frame _ env.initO).1)]
    exact hb1
  have hb3 : noBaseUrl (send_mcp_request
      { (send_mcp_request { st with base_url := some url } env.initO).state with
          server_capabilities :=
            (lookupField rm "capabilities").getD (Json.obj []) }
      env.notifO).state = false := by
    rw [noBaseUrl_congr (send_frame _ env.notifO).1]
    exact hb2
  refine ⟨?_, ?_, ?_, ?_⟩
  · simp only [initClient, htest, heval]
  · simp only [initClient, htest, heval]
  · simp only [initClient, htest, heval]
  · intro hz
    simp only [initClient, htest, heval]
    exact (fetch_fallback _ env.toolsO hb3 hz).2

/-- Each `initialize()` run that resolves connectivity sends exactly one
`initialize` request, whatever else happens. -/
theorem initClient_initCount (st : SessionState) (env : InitEnv)
    (hc : (test_n8n_connectivity env.conn).1 = true) :
    countEvent Event.initRequest (initClient st env).2.2 = 1 := by
  rcases htc : test_n8n_connectivity env.conn with ⟨b, url⟩
  rw [htc] at hc
  simp only at hc
  subst hc
  simp only [initClient, htc]
  rcases initAfterConn_trace { st with base_url := some url } env with hh | hh <;>
    rw [hh] <;> decide

/-- Unfolding of `send_mcp_request` past its base-URL guard, with the
attempt budget exposed as `2 + 1`. -/
theorem send_unfold (st : SessionState) (o : Nat → AttemptOutcome)
    (hb : noBaseUrl st = false) :
    send_mcp_request st o = sendLoop o (2 + 1) 0 st [] := by
  simp only [send_mcp_request, hb, Bool.false_eq_true, if_false]
  rfl

/-- A 404 response ends the retry loop at once: the session id and the
initialized flag are cleared (any session header adopted first), `None` is
returned, and no further attempt happens. -/
theorem sendLoop_step_404 (o : Nat → AttemptOutcome) (fuel attempt : Nat)
    (st : SessionState) (sleeps : List Nat) (r : HttpResponse)
    (h0 : o attempt = .response r) (hst : r.status = 404) :
    sendLoop o (fuel + 1) attempt st sleeps =
      ⟨none,
        { adoptSession st r with session_id := none, initialized := false },
        attempt + 1, sleeps⟩ := by
  simp [sendLoop, h0, hst]

/-- A 400 response ends the retry loop at once with a `None` return and no
state change beyond session-header adoption. -/
theorem sendLoop_step_400 (o : Nat → AttemptOutcome) (fuel attempt : Nat)
    (st : SessionState) (sleeps : List Nat) (r : HttpResponse)
    (h0 : o attempt = .response r) (hst : r.status = 400) :
    sendLoop o (fuel + 1) attempt st sleeps =
      ⟨none, adoptSession st r, attempt + 1, sleeps⟩ := by
  simp [sendLoop, h0, hst]

/-- A 200 response that fails to decode falls through to the next loop
iteration, with no sleep recorded. -/
theorem sendLoop_step_200_fail (o : Nat → AttemptOutcome) (fuel attempt : Nat)
    (st : SessionState) (sleeps : List Nat) (r : HttpResponse)
    (h0 : o attempt = .response r) (hst : r.status = 200)
    (hd : responseDecode r = none) :
    sendLoop o (fuel + 1) attempt st sleeps =
      sendLoop o fuel (attempt + 1) (adoptSession st r) sleeps := by
  simp [sendLoop, h0, hst, hd]

/-- Claim C2: a 404 response makes `send_mcp_request` clear the session id
and the initialized flag, return `None` on that same attempt with no
further retries; and a subsequent `call_tool` on a non-initialized client
re-runs the full handshake — resolve, initialize, acknowledge, list tools —
before dispatching the `tools/call`. -/
theorem claim_C2 :
    (∀ (st : SessionState) (o : Nat → AttemptOutcome) (r : HttpResponse),
        noBaseUrl st = false → o 0 = .response r → r.status = 404 →
        (send_mcp_request st o).ret = none ∧
        (send_mcp_request st o).attemptsUsed = 1 ∧
        (send_mcp_request st o).state.session_id = none ∧
        (send_mcp_request st o).state.initialized = false) ∧
    (∀ (st : SessionState) (env : CallEnv) (tn : String) (args : Json)
        (fs rm : List (String × Json)),
        st.initialized = false →
        (test_n8n_connectivity env.initEnv.conn).1 = true →
        sendRet env.initEnv.initO = some (Json.obj fs) →
        lookupField fs "result" = some (Json.obj rm) →
        serverInfoOk rm →
        (call_tool st env tn args).2.2 =
          [Event.resolve, Event.initRequest, Event.initializedNotification,
            Event.toolsList, Event.toolsCall]) := by
  constructor
  · intro st o r hb h0 hst
    rw [send_unfold st o hb, sendLoop_step_404 o 2 0 st [] r h0 hst]
    exact ⟨rfl, rfl, rfl, rfl⟩
  · intro st env tn args fs rm hinit hc hfs hrm hsi
    obtain ⟨hok, _, htr, _⟩ :=
      initClient_spec st env.initEnv fs rm hc hfs hrm hsi
    rcases hic : initClient st env.initEnv with ⟨b, st1, tr⟩
    rw [hic] at hok htr
    simp only at hok htr
    subst hok
    simp [call_tool, hinit, hic, callDispatch, htr]

/-- Claim C2, witnessed: the 404 clause on a concrete expired-session
response, and the re-handshake clause on a concrete fresh client. -/
theorem claim_C2_witness :
    ((send_mcp_request stW o404W).ret = none ∧
      (send_mcp_request stW o404W).attemptsUsed = 1 ∧
      (send_mcp_request stW o404W).state.session_id = none ∧
      (send_mcp_request stW o404W).state.initialized = false) ∧
    (call_tool mkClientW callEnvW "Send_Email" (Json.obj [])).2.2 =
      [Event.resolve, Event.initRequest, Event.initializedNotification,
        Event.toolsList, Event.toolsCall] := by
  constructor
  · exact claim_C2.1 stW o404W rsp404W (by decide) rfl rfl
  · exact claim_C2.2 mkClientW callEnvW "Send_Email" (Json.obj [])
      [("result", Json.obj [])] [] rfl (by decide) rfl rfl ⟨[], rfl⟩

/-- Claim C4: a 400 response makes `send_mcp_request` return `None` at once
on attempt 1, with no second attempt and no backoff sleep. -/
theorem claim_C4 (st : SessionState) (o : Nat → AttemptOutcome)
    (r : HttpResponse) (hb : noBaseUrl st = false)
    (h0 : o 0 = .response r) (hst : r.status = 400) :
    (send_mcp_request st o).ret = none ∧
    (send_mcp_request st o).attemptsUsed = 1 ∧
    (send_mcp_request st o).sleeps = [] := by
  rw [send_unfold st o hb, sendLoop_step_400 o 2 0 st [] r h0 hst]
  exact ⟨rfl, rfl, rfl⟩

/-- Claim C4, witnessed on a concrete 400 response. -/
theorem claim_C4_witness :
    (send_mcp_request stW o400W).ret = none ∧
    (send_mcp_request stW o400W).attemptsUsed = 1 ∧
    (send_mcp_request stW o400W).sleeps = [] :=
  claim_C4 stW o400W rsp400W (by decide) rfl rfl

/-- Claim C10: handling a 404 session-expiry response mutates only
`session_id` (possibly adopted from the response header, then cleared) and
`initialized`; `base_url`, `available_tools`, `server_capabilities`,
`endpoint_path` and `protocol_version` are unchanged. -/
theorem claim_C10 (st : SessionState) (o : Nat → AttemptOutcome)
    (r : HttpResponse) (hb : noBaseUrl st = false)
    (h0 : o 0 = .response r) (hst : r.status = 404) :
    (send_mcp_request st o).state.base_url = st.base_url ∧
    (send_mcp_request st o).state.available_tools = st.available_tools ∧
    (send_mcp_request st o).state.server_capabilities =
      st.server_capabilities ∧
    (send_mcp_request st o).state.endpoint_path = st.endpoint_path ∧
    (send_mcp_request st o).state.protocol_version = st.protocol_version ∧
    (send_mcp_request st o).state.session_id = none ∧
    (send_mcp_request st o).state.initialized = false := by
  rw [send_unfold st o hb, sendLoop_step_404 o 2 0 st [] r h0 hst]
  cases hh : r.sessionHeader <;> simp [adoptSession, hh]

/-- Claim C10, witnessed on a concrete 404 response carrying a session
header. -/
theorem claim_C10_witness :
    (send_mcp_request stW o404W).state.base_url = stW.base_url ∧
    (send_mcp_request stW o404W).state.available_tools =
      stW.available_tools ∧
    (send_mcp_request stW o404W).state.server_capabilities =
      stW.server_capabilities ∧
    (send_mcp_request stW o404W).state.endpoint_path = stW.endpoint_path ∧
    (send_mcp_request stW o404W).state.protocol_version =
      stW.protocol_version ∧
    (send_mcp_request stW o404W).state.session_id = none ∧
    (send_mcp_request stW o404W).state.initialized = false :=
  claim_C10 stW o404W rsp404W (by decide) rfl rfl

/-- Shape of every value the retry loop can return: `None`, the fixed 202
acknowledgement object for some 202 attempt, or the decoded value of some
200 attempt. -/
theorem sendRetLoop_shape (o : Nat → AttemptOutcome) :
    ∀ fuel attempt,
      sendRetLoop o fuel attempt = none ∨
      (∃ i r, o i = .response r ∧ r.status = 202 ∧
        sendRetLoop o fuel attempt = some acceptedJson) ∨
      (∃ i r j, o i = .response r ∧ r.status = 200 ∧
        responseDecode r = some j ∧ sendRetLoop o fuel attempt = some j) := by
  intro fuel
  induction fuel with
  | zero => intro attempt; exact Or.inl rfl
  | succ fuel ih =>
    intro attempt
    cases ho : o attempt with
    | timeout =>
      by_cases h : attempt < MAX_RETRIES - 1
      · have heq : sendRetLoop o (fuel + 1) attempt =
            sendRetLoop o fuel (attempt + 1) := by
          simp [sendRetLoop, ho, h]
        rw [heq]
        exact ih (attempt + 1)
      · have heq : sendRetLoop o (fuel + 1) attempt = none := by
          simp [sendRetLoop, ho, h]
        rw [heq]
        exact Or.inl rfl
    | netError =>
      by_cases h : attempt < MAX_RETRIES - 1
      · have heq : sendRetLoop o (fuel + 1) attempt =
            sendRetLoop o fuel (attempt + 1) := by
          simp [sendRetLoop, ho, h]
        rw [heq]
        exact ih (attempt + 1)
      · have heq : sendRetLoop o (fuel + 1) attempt = none := by
          simp [sendRetLoop, ho, h]
        rw [heq]
        exact Or.inl rfl
    | response r =>
      by_cases h200 : r.status = 200
      · cases hd : responseDecode r with
        | some d =>
          refine Or.inr (Or.inr ⟨attempt, r, d, ho, h200, hd, ?_⟩)
          simp [sendRetLoop, ho, h200, hd]
        | none =>
          have heq : sendRetLoop o (fuel + 1) attempt =
              sendRetLoop o fuel (attempt + 1) := by
            simp [sendRetLoop, ho, h200, hd]
          rw [heq]
          exact ih (attempt + 1)
      · by_cases h202 : r.status = 202
        · refine Or.inr (Or.inl ⟨attempt, r, ho, h202, ?_⟩)
          simp [sendRetLoop, ho, h200, h202]
        · by_cases h400 : r.status = 400
          · have heq : sendRetLoop o (fuel + 1) attempt = none := by
              simp [sendRetLoop, ho, h200, h202, h400]
            rw [heq]
            exact Or.inl rfl
          · by_cases h404 : r.status = 404
            · have heq : sendRetLoop o (fuel + 1) attempt = none := by
                simp [sendRetLoop, ho, h200, h202, h400, h404]
              rw [heq]
              exact Or.inl rfl
            · by_cases h5 : 500 ≤ r.status ∧ attempt < MAX_RETRIES - 1
              · have heq : sendRetLoop o (fuel + 1) attempt =
                    sendRetLoop o fuel (attempt + 1) := by
                  simp [sendRetLoop, ho, h200, h202, h400, h404, h5]
                rw [heq]
                exact ih (attempt + 1)
              · have heq : sendRetLoop o (fuel + 1) attempt = none := by
                  simp [sendRetLoop, ho, h200, h202, h400, h404, h5]
                rw [heq]
                exact Or.inl rfl

/-- Claim C9: `send_mcp_request` is total (the Lean model of a function whose
handlers catch every exception) and its value is always `None`, the fixed
202 acknowledgement object of some attempt, or the decoded response object
of some 200 attempt — every failure path funnels to `None`. -/
theorem claim_C9 (st : SessionState) (o : Nat → AttemptOutcome) :
    (send_mcp_request st o).ret = none ∨
    (∃ i r, o i = .response r ∧ r.status = 202 ∧
      (send_mcp_request st o).ret = some acceptedJson) ∨
    (∃ i r j, o i = .response r ∧ r.status = 200 ∧
      responseDecode r = some j ∧ (send_mcp_request st o).ret = some j) := by
  by_cases hb : noBaseUrl st
  · left
    simp [send_mcp_request, hb]
  · have hb2 : noBaseUrl st = false := by
      cases h : noBaseUrl st
      · rfl
      · exact absurd (by rw [h]) hb
    rw [send_ret_eq st o hb2]
    exact sendRetLoop_shape o MAX_RETRIES 0

/-- Claim C3, counterexample: a 200 response whose body fails to decode does
not end the call — the loop falls through to a second attempt (the
200-branch has no `return` on the decode-failure path), and here the second
attempt's decodable body is returned. So the call neither returns `None`
nor stops after the failing attempt. -/
theorem claim_C3_counterexample :
    (send_mcp_request stW oBadThenGoodW).ret = some (Json.obj []) ∧
    (send_mcp_request stW oBadThenGoodW).ret ≠ none ∧
    (send_mcp_request stW oBadThenGoodW).attemptsUsed = 2 ∧
    responseDecode rspBadBodyW = none ∧
    oBadThenGoodW 0 = .response rspBadBodyW ∧
    rspBadBodyW.status = 200 := by
  refine ⟨rfl, ?_, rfl, rfl, rfl, rfl⟩
  intro h
  rw [show (send_mcp_request stW oBadThenGoodW).ret = some (Json.obj [])
    from rfl] at h
  exact Option.noConfusion h

/-- Claim C3 as amended: a 200 response that cannot be decoded makes the
attempt fall through to an immediate further attempt with no backoff sleep;
only when every attempt of the budget ends that way does the call return
`None`, after all `MAX_RETRIES` attempts. -/
theorem claim_C3 (st : SessionState) (o : Nat → AttemptOutcome)
    (hb : noBaseUrl st = false)
    (h : ∀ i, i < MAX_RETRIES → ∃ r, o i = .response r ∧ r.status = 200 ∧
      responseDecode r = none) :
    (send_mcp_request st o).ret = none ∧
    (send_mcp_request st o).attemptsUsed = MAX_RETRIES ∧
    (send_mcp_request st o).sleeps = [] := by
  obtain ⟨r0, h0, hs0, hd0⟩ := h 0 (by decide)
  obtain ⟨r1, h1, hs1, hd1⟩ := h 1 (by decide)
  obtain ⟨r2, h2, hs2, hd2⟩ := h 2 (by decide)
  rw [send_unfold st o hb,
    sendLoop_step_200_fail o 2 0 st [] r0 h0 hs0 hd0,
    sendLoop_step_200_fail o 1 1 _ [] r1 h1 hs1 hd1,
    sendLoop_step_200_fail o 0 2 _ [] r2 h2 hs2 hd2]
  exact ⟨rfl, rfl, rfl⟩

/-- Claim C3 as amended, witnessed: three undecodable 200 responses exhaust
the budget with no sleeps and a `None` return. -/
theorem claim_C3_witness :
    (send_mcp_request stW oAllBadW).ret = none ∧
    (send_mcp_request stW oAllBadW).attemptsUsed = MAX_RETRIES ∧
    (send_mcp_request stW oAllBadW).sleeps = [] :=
  claim_C3 stW oAllBadW (by decide)
    (fun _ _ => ⟨rspBadBodyW, rfl, rfl, rfl⟩)

/-- Occurrence counts add up over concatenated traces. -/
theorem countEvent_append (e : Event) (a b : List Event) :
    countEvent e (a ++ b) = countEvent e a + countEvent e b := by
  simp [countEvent, List.filter_append]

/-- Claim C6, counterexample: two lock-serialized `initialize()` runs
against a fully successful environment each execute the complete handshake
— two `initialize` requests, two notifications, two `tools/list` requests —
because `initialize()` never re-checks `initialized` inside the lock; the
handshakes do not collapse into one. -/
theorem claim_C6_counterexample :
    countEvent Event.initRequest
      (initCalls mkClientW (fun _ => envOKW) 2).2 = 2 ∧
    countEvent Event.initializedNotification
      (initCalls mkClientW (fun _ => envOKW) 2).2 = 2 ∧
    countEvent Event.toolsList
      (initCalls mkClientW (fun _ => envOKW) 2).2 = 2 ∧
    ¬ countEvent Event.initRequest
      (initCalls mkClientW (fun _ => envOKW) 2).2 = 1 := by
  refine ⟨?_, ?_, ?_, ?_⟩ <;> decide

/-- Claim C6 as amended: `N` simultaneous `initialize()` invocations are
serialized by the session lock into `N` back-to-back runs (modelled by
`initCalls`), and every run whose connectivity test succeeds executes its
own full handshake, so `N` `initialize` requests are sent in total — later
callers re-run the handshake against the state left by earlier ones rather
than adopting the first outcome. -/
theorem claim_C6 (st : SessionState) (envs : Nat → InitEnv) (n : Nat)
    (h : ∀ i, i < n → (test_n8n_connectivity (envs i).conn).1 = true) :
    countEvent Event.initRequest (initCalls st envs n).2 = n := by
  induction n with
  | zero => rfl
  | succ n ih =>
    have hn := h n (by omega)
    have hih := ih (fun i hi => h i (by omega))
    simp only [initCalls]
    rw [countEvent_append, hih,
      initClient_initCount (initCalls st envs n).1 (envs n) hn]

/-- Claim C6 as amended, witnessed at `N = 2`: two serialized runs send
exactly two `initialize` requests. -/
theorem claim_C6_witness :
    countEvent Event.initRequest
      (initCalls mkClientW (fun _ => envOKW) 2).2 = 2 :=
  claim_C6 mkClientW (fun _ => envOKW) 2
    (fun _ _ =>
      (by decide : (test_n8n_connectivity envOKW.conn).1 = true))

/-- Claim C7: the connectivity test returns success with the URL of the
first candidate (in the fixed order) answering 200, probing no later
candidate; with no 200 anywhere — every probe failing or erroring — it
returns the fixed sentinel, having probed every candidate, and no probe
failure escapes (the model is total). -/
theorem claim_C7 :
    (∀ (conn : String → ProbeOutcome) (pre : List String) (h : String)
        (post : List String),
        DOCKER_HOSTS = pre ++ h :: post →
        (∀ x ∈ pre, probeSuccess (conn x) = false) →
        probeSuccess (conn h) = true →
        test_n8n_connectivity conn = (true, build_url h DEFAULT_PORT "") ∧
        probedHosts conn = pre ++ [h]) ∧
    (∀ conn : String → ProbeOutcome,
        (∀ x ∈ DOCKER_HOSTS, probeSuccess (conn x) = false) →
        test_n8n_connectivity conn = (false, "No n8n instance accessible") ∧
        probedHosts conn = DOCKER_HOSTS) := by
  constructor
  · intro conn pre h post hsplit hpre hs
    have heq := connLoop_first_success conn pre h post hpre hs
    unfold test_n8n_connectivity probedHosts
    rw [hsplit, heq]
    exact ⟨rfl, rfl⟩
  · intro conn hall
    have heq := connLoop_all_fail conn DOCKER_HOSTS hall
    unfold test_n8n_connectivity probedHosts
    rw [heq]
    exact ⟨rfl, rfl⟩

/-- Claim C7, witnessed: a probe environment where only the third candidate
answers stops right there, and one where nothing answers probes all five
candidates and reports the sentinel. -/
theorem claim_C7_witness :
    (test_n8n_connectivity connOneW =
        (true, build_url "127.0.0.1" DEFAULT_PORT "") ∧
      probedHosts connOneW =
        ["host.docker.internal", "localhost", "127.0.0.1"]) ∧
    (test_n8n_connectivity connNoneW =
        (false, "No n8n instance accessible") ∧
      probedHosts connNoneW = DOCKER_HOSTS) := by
  constructor
  · exact claim_C7.1 connOneW ["host.docker.internal", "localhost"]
      "127.0.0.1" ["172.17.0.1", "n8n"] rfl
      (fun x hx => by fin_cases hx <;> rfl) rfl
  · exact claim_C7.2 connNoneW (fun x _ => rfl)

/-- Claim C5: when the tools/list fetch of a successful initialization
yields zero tools — a null response, an object response without `result`,
or a result with an absent or empty `tools` list — the available-tools set
becomes exactly the fixed built-in six-descriptor fallback set, and
`initialize()` still completes with `initialized = true`. -/
theorem claim_C5 (st : SessionState) (env : InitEnv)
    (fs rm : List (String × Json))
    (hc : (test_n8n_connectivity env.conn).1 = true)
    (hfs : sendRet env.initO = some (Json.obj fs))
    (hrm : lookupField fs "result" = some (Json.obj rm))
    (hsi : serverInfoOk rm)
    (hz : zeroTools (sendRet env.toolsO)) :
    (initClient st env).1 = true ∧
    (initClient st env).2.1.initialized = true ∧
    (initClient st env).2.1.available_tools = fallbackTools := by
  obtain ⟨h1, h2, _, h4⟩ := initClient_spec st env fs rm hc hfs hrm hsi
  exact ⟨h1, h2, h4 hz⟩

/-- Claim C5, witnessed: a concrete successful handshake whose tools/list
response carries an empty list ends initialized with exactly the six
fallback descriptors. -/
theorem claim_C5_witness :
    (initClient mkClientW envOKW).1 = true ∧
    (initClient mkClientW envOKW).2.1.initialized = true ∧
    (initClient mkClientW envOKW).2.1.available_tools = fallbackTools :=
  claim_C5 mkClientW envOKW [("result", Json.obj [])] [] (by decide) rfl rfl
    ⟨[], rfl⟩
    (Or.inr (Or.inr ⟨[("result", Json.obj [("tools", Json.arr [])])],
      [("tools", Json.arr [])], rfl, rfl, Or.inr rfl⟩))

/-- Claim C8: with both the `ACTION:` marker and the `call_tool` token
present, the parser returns the name extracted after the `TOOL:` marker
(first line, stripped) even when argument extraction fails — absent
marker, no brace, unbalanced braces, or a JSON decode error — in which
case the argument map is empty; without the action marker or the token it
returns no directive and an empty argument map. -/
theorem claim_C8 :
    (∀ text : String,
        strContains text "ACTION:" = true →
        strContains text "call_tool" = true →
        (extract_tool_call text).1 = toolNameOf text ∧
        (argsDecodeFailed text → (extract_tool_call text).2 = Json.obj [])) ∧
    (∀ text : String,
        strContains text "ACTION:" = false ∨
          strContains text "call_tool" = false →
        extract_tool_call text = (none, Json.obj [])) := by
  constructor
  · intro text h1 h2
    constructor
    · simp [extract_tool_call, h1, h2]
    · intro haf
      simp only [extract_tool_call, h1, h2, and_self, if_true]
      rcases haf with haf | haf
      · simp [argsOf, haf]
      · by_cases ha : strContains text "ARGUMENTS:" = true
        · simp only [String.toList] at haf
          simp only [argsOf, ha, if_true, String.toList]
          cases hidx : List.findIdx? (fun c => decide (c = lbrace))
              (pyStrip (pySplitAfter text "ARGUMENTS:")).data with
          | none => simp [hidx]
          | some start_idx =>
            rw [hidx] at haf
            simp only at haf
            cases hscan : braceScan
                (List.drop start_idx
                  (pyStrip (pySplitAfter text "ARGUMENTS:")).data)
                0 start_idx with
            | none => simp [hidx, hscan]
            | some end_idx =>
              rw [hscan] at haf
              simp only at haf
              simp [hidx, hscan, haf]
        · simp [argsOf, ha]
  · intro text h
    rcases h with h | h <;> simp [extract_tool_call, h]

/-- Claim C8, witnessed: the spec's directive with its `ARGUMENTS:` object
truncated (unbalanced braces) still yields tool name `Send_Email` with an
empty argument map, and text without markers yields no directive. -/
theorem claim_C8_witness :
    ((extract_tool_call
        "ACTION: call_tool\nTOOL: Send_Email\nARGUMENTS: \x7b\"To\": \"a@b.com\"").1 =
      some "Send_Email" ∧
    (extract_tool_call
        "ACTION: call_tool\nTOOL: Send_Email\nARGUMENTS: \x7b\"To\": \"a@b.com\"").2 =
      Json.obj []) ∧
    extract_tool_call "What is the weather like?" = (none, Json.obj []) := by
  refine ⟨⟨?_, ?_⟩, ?_⟩
  · exact ((claim_C8.1 _ (by decide) (by decide)).1).trans rfl
  · exact (claim_C8.1 _ (by decide) (by decide)).2 (Or.inr True.intro)
  · exact claim_C8.2 _ (Or.inl (by decide))

/-- Claim C1, counterexample: the empty-object response `{}` — not null,
containing neither `error` nor `result` — does not yield the fixed
unexpected-format string: the dispatcher's `if not tool_response:`
truthiness guard routes every falsy response to the no-response string. -/
theorem claim_C1_counterexample :
    interpretToolResponse (some (Json.obj [])) =
      "❌ No response from MCP server" ∧
    interpretToolResponse (some (Json.obj [])) ≠
      "❌ Unexpected response format" := by
  refine ⟨rfl, fun h => ?_⟩
  have h2 : ("❌ No response from MCP server" : String) =
      "❌ Unexpected response format" := h
  exact absurd h2 (by decide)

/-- Claim C1 as amended: once the client is initialized, `call_tool` returns
`interpretToolResponse` of the transport response, which maps a null or
falsy response (such as the empty object) to the fixed no-response string;
a truthy object response with an `error` object to the code/message string;
a truthy object response with a `result` and no `error` to that result
pretty-printed (so `{result: {ok: true}}` renders text containing
`"ok": true`); and any other truthy object response to the fixed
unexpected-format string. The interpretation is total: no exception
reaches the caller. -/
theorem claim_C1 :
    (∀ resp : Option Json,
        (resp = none ∨ ∃ j, resp = some j ∧ truthy j = false) →
        interpretToolResponse resp = "❌ No response from MCP server") ∧
    (∀ fs em : List (String × Json),
        lookupField fs "error" = some (Json.obj em) →
        interpretToolResponse (some (Json.obj fs)) =
          "❌ MCP error " ++
            pyStr ((lookupField em "code").getD (Json.str "unknown")) ++
            ": " ++
            pyStr ((lookupField em "message").getD
              (Json.str "Unknown error"))) ∧
    (∀ (fs : List (String × Json)) (v : Json),
        lookupField fs "error" = none →
        lookupField fs "result" = some v →
        interpretToolResponse (some (Json.obj fs)) = dumpsTop v) ∧
    (∀ fs : List (String × Json),
        truthy (Json.obj fs) = true →
        lookupField fs "error" = none →
        lookupField fs "result" = none →
        interpretToolResponse (some (Json.obj fs)) =
          "❌ Unexpected response format") ∧
    strContains
      (interpretToolResponse (some (Json.obj
        [("result", Json.obj [("ok", Json.bool true)])])))
      "\"ok\": true" = true ∧
    (∀ (st : SessionState) (env : CallEnv) (tn : String) (args : Json),
        st.initialized = true →
        (call_tool st env tn args).1 =
          interpretToolResponse (send_mcp_request st env.callO).ret) := by
  refine ⟨?_, ?_, ?_, ?_, ?_, ?_⟩
  · intro resp h
    rcases h with h | ⟨j, hj, ht⟩
    · rw [h]
      rfl
    · rw [hj]
      simp [interpretToolResponse, ht]
  · intro fs em he
    have htr := truthy_of_lookup he
    simp [interpretToolResponse, htr, pyContains, pySubscript, pyGet, he]
  · intro fs v he hr
    have htr := truthy_of_lookup hr
    simp [interpretToolResponse, htr, pyContains, pySubscript, pyGet, he, hr]
  · intro fs htr he hr
    simp [interpretToolResponse, htr, pyContains, he, hr]
  · rfl
  · intro st env tn args h
    simp [call_tool, h, callDispatch]

/-- Claim C1 as amended, witnessed on each interpretation branch and on the
dispatch of an initialized client. -/
theorem claim_C1_witness :
    interpretToolResponse none = "❌ No response from MCP server" ∧
    interpretToolResponse (some (Json.obj [("error", Json.obj
        [("code", Json.num ⟨false, -32601, 0⟩),
         ("message", Json.str "no such tool")])])) =
      "❌ MCP error -32601: no such tool" ∧
    interpretToolResponse (some (Json.obj
        [("result", Json.obj [("ok", Json.bool true)])])) =
      dumpsTop (Json.obj [("ok", Json.bool true)]) ∧
    interpretToolResponse (some (Json.obj [("jsonrpc", Json.str "2.0")])) =
      "❌ Unexpected response format" ∧
    (call_tool stInitW callEnvW "Send_Email" (Json.obj [])).1 =
      interpretToolResponse (send_mcp_request stInitW callEnvW.callO).ret := by
  refine ⟨?_, ?_, ?_, ?_, ?_⟩
  · exact claim_C1.1 none (Or.inl rfl)
  · exact (claim_C1.2.1
      [("error", Json.obj [("code", Json.num ⟨false, -32601, 0⟩),
        ("message", Json.str "no such tool")])]
      [("code", Json.num ⟨false, -32601, 0⟩),
        ("message", Json.str "no such tool")] rfl).trans rfl
  · exact claim_C1.2.2.1
      [("result", Json.obj [("ok", Json.bool true)])]
      (Json.obj [("ok", Json.bool true)]) rfl rfl
  · exact claim_C1.2.2.2.1 [("jsonrpc", Json.str "2.0")] rfl rfl rfl
  · exact claim_C1.2.2.2.2.2 stInitW callEnvW "Send_Email" (Json.obj []) rfl
